import Mathlib

/-!
Shallow embedding of the AMPM-config-backend pricing core
(`src/price.ts`, the config loader appended to `src/email.ts`, and
`sanitizeOverrides` from `src/app.ts`).

Conventions of the embedding:
* JavaScript numbers are modelled as exact rationals `ℚ`.
* `Math.round x = Math.floor (x + 0.5)` (round half up), `Math.floor`,
  `Math.max 0` become `jsRound`, `Int.floor`, `max 0` on `ℚ`.
* A zod `z.record(string, number)` value is an association list
  `List (String × ℚ)`; property lookup `m[k]` is `assq k m` and the
  JavaScript `a ?? b` on its result is `Option.getD` / an `Option` match.
* The single source of a non-number (`NaN`) in `calculatePrice` is the
  delivery-surcharge lookup `overrideMap[key] ?? cfg.delivery_surcharge_eur[key]`,
  which is `undefined` when neither map has the key; every arithmetic
  result downstream of it is then `NaN`.  We model such possibly-`NaN`
  numbers as `Option ℚ` / `Option ℤ` with `none` = `NaN`, and `Option.map`
  for the (strict) propagation of `NaN` through `+ - * Math.max Math.round`.
* The `throw new Error("Missing or invalid 'dimension'.")` in the base
  resolution is `Except.error PriceError.missingDimension`.
-/

instance {ε α : Type} [DecidableEq ε] [DecidableEq α] : DecidableEq (Except ε α) :=
  fun x y =>
    match x, y with
    | .ok a, .ok b =>
      if h : a = b then .isTrue (by rw [h])
      else .isFalse (by intro hc; cases hc; exact h rfl)
    | .error a, .error b =>
      if h : a = b then .isTrue (by rw [h])
      else .isFalse (by intro hc; cases hc; exact h rfl)
    | .ok _, .error _ => .isFalse (by intro hc; cases hc)
    | .error _, .ok _ => .isFalse (by intro hc; cases hc)

/-- JavaScript's `Math.round`: round half towards positive infinity,
`Math.floor (x + 0.5)`.  Uses `Rat.floor` so concrete instances reduce. -/
def jsRound (q : ℚ) : ℤ := (q + 1/2).floor

/-- JavaScript's binary `Math.max` on (non-`NaN`) numbers. -/
def jsMax (a b : ℚ) : ℚ := if a ≤ b then b else a

/-- `Math.max` on values already known to be integers. -/
def jsMaxI (a b : ℤ) : ℤ := if a ≤ b then b else a

/-- First-match association-list lookup, modelling property access `m[k]`
on a plain JavaScript object parsed by `z.record`. -/
def assq {α : Type} (k : String) : List (String × α) → Option α
  | [] => none
  | kv :: rest => if kv.1 = k then some kv.2 else assq k rest

/-- `product_type` enumeration of `PriceInputSchema` (`src/price.ts`). -/
inductive ProductType
  | dimensioned
  | table_only
  | all_in_one
deriving DecidableEq, Repr

/-- `delivery_days` literal union `7 | 30 | 45 | 60` of `PriceInputSchema`. -/
inductive DeliveryDays
  | d7
  | d30
  | d45
  | d60
deriving DecidableEq, Repr

/-- `String(input.delivery_days)`: the string key used for the surcharge maps. -/
def DeliveryDays.key : DeliveryDays → String
  | .d7 => "7"
  | .d30 => "30"
  | .d45 => "45"
  | .d60 => "60"

/-- `advance_payment` enumeration `"none" | "50" | "100"` of `PriceInputSchema`. -/
inductive AdvancePayment
  | none
  | fifty
  | hundred
deriving DecidableEq, Repr

/-- The `first_order_discount_by_type` object of `PricingSchema`
(config loader): one required number per product type. -/
structure FirstOrderDiscounts where
  table_only : ℚ
  all_in_one : ℚ
  dimensioned : ℚ
deriving DecidableEq, Repr

/-- The `advance_payment_discount_eur` object of `PricingSchema`:
required keys `none`, `"50"`, `"100"` (renamed `fifty`/`hundred`,
since `"50"` is not a legal Lean field name). -/
structure AdvanceDiscounts where
  none : ℚ
  fifty : ℚ
  hundred : ℚ
deriving DecidableEq, Repr

/-- The rule set: `PricingSchema` from the config loader.
`dimensionBaseEUR` and `delivery_surcharge_eur` are zod records, hence
association lists; note that `z.record(DeliveryDaysSchema, z.number())`
only constrains the keys that are present, it does not require all four
delivery tiers to be present. -/
structure PricingConfig where
  dimensionBaseEUR : List (String × ℚ)
  base_table_only : ℚ
  base_all_in_one : ℚ
  startup_discount_eur : ℚ
  first_order_discount_by_type : FirstOrderDiscounts
  delivery_surcharge_eur : List (String × ℚ)
  advance_payment_discount_eur : AdvanceDiscounts
  two_pcs_line_discount_eur : ℚ
deriving DecidableEq, Repr

/-- Runtime key check performed by `PricingSchema` on
`delivery_surcharge_eur`: every present key must be one of the four
tier strings accepted by `DeliveryDaysSchema`.  Presence of all four
keys is NOT checked by zod records. -/
def pricingSchemaAcceptsDelivery (cfg : PricingConfig) : Bool :=
  cfg.delivery_surcharge_eur.all fun kv =>
    ["7", "30", "45", "60"].contains kv.1

/-- A validated order configuration: the parsed output type of
`PriceInputSchema` (`src/price.ts`).  Optional fields are `Option`;
`delivery_surcharge_override` is a zod record of numbers. -/
structure PriceInput where
  product_type : ProductType
  dimension : Option String
  quantity : ℚ
  delivery_days : DeliveryDays
  base_override_eur : Option ℚ
  startup_discount_eur : Option ℚ
  first_order_discount_eur : Option ℚ
  delivery_surcharge_override : Option (List (String × ℚ))
  advance_payment : AdvancePayment
  two_pcs_line_discount_eur : Option ℚ
  advance_payment_discount_eur : Option ℚ
  custom_unit_adjust_eur : Option ℚ
  custom_line_adjust_eur : Option ℚ
deriving DecidableEq, Repr

/-- The quantity rule of `PriceInputSchema`:
`z.number().min(1).max(500)` — a number check plus the two bound
checks; there is no `.int()` step in the chain. -/
def quantityAccepted (q : ℚ) : Bool :=
  decide (1 ≤ q) && decide (q ≤ 500)

/-- The one error `calculatePrice` can throw:
`new Error("Missing or invalid 'dimension'.")`. -/
inductive PriceError
  | missingDimension
deriving DecidableEq, Repr

/-- Base resolution in `calculatePrice`:
`input.base_override_eur ?? (dimensioned ? lookup-or-throw : fixed base)`.
The guard `!input.dimension` is JavaScript truthiness, so the empty
string also fails it; `input.dimension in cfg.dimensionBaseEUR` is the
association-list lookup. -/
def resolveBase (cfg : PricingConfig) (input : PriceInput) : Except PriceError ℚ :=
  match input.base_override_eur with
  | some b => Except.ok b
  | none =>
    match input.product_type with
    | .dimensioned =>
      match input.dimension with
      | none => Except.error PriceError.missingDimension
      | some d =>
        if d = "" then Except.error PriceError.missingDimension
        else
          match assq d cfg.dimensionBaseEUR with
          | none => Except.error PriceError.missingDimension
          | some b => Except.ok b
    | .table_only => Except.ok cfg.base_table_only
    | .all_in_one => Except.ok cfg.base_all_in_one

/-- `const startup = input.startup_discount_eur ?? cfg.startup_discount_eur`. -/
def resolveStartup (cfg : PricingConfig) (input : PriceInput) : ℚ :=
  input.startup_discount_eur.getD cfg.startup_discount_eur

/-- `cfg.first_order_discount_by_type[input.product_type]`. -/
def firstOrderByType (cfg : PricingConfig) : ProductType → ℚ
  | .table_only => cfg.first_order_discount_by_type.table_only
  | .all_in_one => cfg.first_order_discount_by_type.all_in_one
  | .dimensioned => cfg.first_order_discount_by_type.dimensioned

/-- `const firstOrder = input.first_order_discount_eur ?? cfg.first_order_discount_by_type[...]`. -/
def resolveFirstOrder (cfg : PricingConfig) (input : PriceInput) : ℚ :=
  input.first_order_discount_eur.getD (firstOrderByType cfg input.product_type)

/-- `const delivery = overrideMap[key] ?? cfg.delivery_surcharge_eur[key]`:
`none` is the `undefined` that arises when neither map holds the key. -/
def deliveryLookup (cfg : PricingConfig) (input : PriceInput) : Option ℚ :=
  match assq input.delivery_days.key (input.delivery_surcharge_override.getD []) with
  | some v => some v
  | none => assq input.delivery_days.key cfg.delivery_surcharge_eur

/-- `cfg.advance_payment_discount_eur[input.advance_payment]` — always a
number, since `PricingSchema` requires all three tier fields. -/
def advanceByTier (cfg : PricingConfig) : AdvancePayment → ℚ
  | .none => cfg.advance_payment_discount_eur.none
  | .fifty => cfg.advance_payment_discount_eur.fifty
  | .hundred => cfg.advance_payment_discount_eur.hundred

/-- `const advance = input.advance_payment_discount_eur ?? cfg.advance_payment_discount_eur[...]`. -/
def resolveAdvance (cfg : PricingConfig) (input : PriceInput) : ℚ :=
  input.advance_payment_discount_eur.getD (advanceByTier cfg input.advance_payment)

/-- `qty >= 2 ? (input.two_pcs_line_discount_eur ?? cfg.two_pcs_line_discount_eur) * pairs : 0`
with `pairs = Math.floor(qty / 2)`. -/
def twoPcsDiscount (cfg : PricingConfig) (input : PriceInput) : ℚ :=
  if 2 ≤ input.quantity then
    (input.two_pcs_line_discount_eur.getD cfg.two_pcs_line_discount_eur) *
      (((input.quantity / 2).floor : ℤ) : ℚ)
  else 0

/-- The `adjustments` object of the returned breakdown.
`delivery_surcharge` is the possibly-`undefined` lookup result. -/
structure Adjustments where
  startup_discount : ℚ
  first_order_discount : ℚ
  delivery_surcharge : Option ℚ
  advance_payment_discount : ℚ
  two_pcs_line_discount_total : ℚ
  custom_unit_adjust_eur : ℚ
  custom_line_adjust_eur : ℚ
deriving DecidableEq, Repr

/-- The value returned by `calculatePrice`.  `unit`, `subtotal`, `total`
are `Option ℤ` because they are `NaN` whenever the delivery lookup was
`undefined` (`none`). -/
structure Breakdown where
  base : ℚ
  adjustments : Adjustments
  unit : Option ℤ
  subtotal : Option ℤ
  total : Option ℤ
deriving DecidableEq, Repr

/-- `calculatePrice` from `src/price.ts`, with the rule set passed
explicitly (the source reads it from the config cache).  Every `let`
mirrors a `const` of the source; `Option.map` is `NaN` propagation
from the delivery lookup through the arithmetic, `Math.max` and
`Math.round`. -/
def calculatePrice (cfg : PricingConfig) (input : PriceInput) :
    Except PriceError Breakdown :=
  match resolveBase cfg input with
  | Except.error e => Except.error e
  | Except.ok base =>
    let startup := resolveStartup cfg input
    let firstOrder := resolveFirstOrder cfg input
    let delivery := deliveryLookup cfg input
    let advance := resolveAdvance cfg input
    let unit_before_qty : Option ℚ :=
      delivery.map fun d =>
        jsMax 0 (base - startup - firstOrder + d - advance) +
          input.custom_unit_adjust_eur.getD 0
    let qty := input.quantity
    let subtotalBeforeLineAdj : Option ℚ := unit_before_qty.map (· * qty)
    let twoPcsLineDiscount := twoPcsDiscount cfg input
    let total : Option ℤ :=
      subtotalBeforeLineAdj.map fun s =>
        jsMaxI 0 (jsRound (s - twoPcsLineDiscount + input.custom_line_adjust_eur.getD 0))
    Except.ok
      { base := base
        adjustments :=
          { startup_discount := startup
            first_order_discount := firstOrder
            delivery_surcharge := delivery
            advance_payment_discount := advance
            two_pcs_line_discount_total := twoPcsLineDiscount
            custom_unit_adjust_eur := input.custom_unit_adjust_eur.getD 0
            custom_line_adjust_eur := input.custom_line_adjust_eur.getD 0 }
        unit := unit_before_qty.map jsRound
        subtotal := subtotalBeforeLineAdj.map jsRound
        total := total }

/-- The eight override field names destructured away by
`sanitizeOverrides` in `src/app.ts`. -/
def overrideFields : List String :=
  ["base_override_eur", "startup_discount_eur", "first_order_discount_eur",
   "delivery_surcharge_override", "two_pcs_line_discount_eur",
   "advance_payment_discount_eur", "custom_unit_adjust_eur",
   "custom_line_adjust_eur"]

/-- The declared fields of `PriceInputSchema` (`src/price.ts`): the five
plain fields plus the eight override fields. -/
def declaredFields : List String :=
  ["product_type", "dimension", "quantity", "delivery_days",
   "advance_payment"] ++ overrideFields

/-- `sanitizeOverrides(input, allow)` from `src/app.ts`: on a raw object
(association list over arbitrary field values), `allow = true` returns
the input itself; otherwise object destructuring removes exactly the
eight named override fields and the rest-spread keeps every other
property. -/
def sanitizeOverrides {α : Type} (input : List (String × α)) (allow : Bool) :
    List (String × α) :=
  if allow then input
  else input.filter fun kv => !(overrideFields.contains kv.1)

/-- Failure modes of the config loader (read failure from
`fs.readFileSync`, `JSON.parse` failure, `PricingSchema` rejection). -/
inductive ConfigError
  | readFailed
  | parseFailed
  | invalidSchema
deriving DecidableEq, Repr

/-- `getPricingConfig` from the config loader, with the module-level
`cached` variable passed and returned explicitly, and the whole
read-strip-BOM-parse-validate pipeline abstracted as its outcome
`src : Except ConfigError PricingConfig`.  Returns the call's result
and the new cache state: a cache hit returns the cached value, a
successful load fills the cache, and a failed load throws before the
`cached = parsed.data` assignment. -/
def getPricingConfig (src : Except ConfigError PricingConfig)
    (cached : Option PricingConfig) :
    Except ConfigError PricingConfig × Option PricingConfig :=
  match cached with
  | some c => (Except.ok c, some c)
  | none =>
    match src with
    | Except.ok cfg => (Except.ok cfg, some cfg)
    | Except.error e => (Except.error e, none)

/-- `reloadPricingConfig` from the config loader: it first assigns
`cached = null` and only then calls `getPricingConfig()`. -/
def reloadPricingConfig (src : Except ConfigError PricingConfig)
    (_cached : Option PricingConfig) :
    Except ConfigError PricingConfig × Option PricingConfig :=
  getPricingConfig src none

/-- The reference rule set (values recoverable from `tests/price.test.ts`:
base 1170 for "200x100", startup 25, first-order 50/150/50, delivery
surcharges 25 at 60 days, 100 at 45, 200 at 30, advance discounts
0/50/100, two-piece discount 25). -/
def cfg0 : PricingConfig :=
  { dimensionBaseEUR := [("200x100", 1170)]
    base_table_only := 430
    base_all_in_one := 900
    startup_discount_eur := 25
    first_order_discount_by_type :=
      { table_only := 50, all_in_one := 150, dimensioned := 50 }
    delivery_surcharge_eur := [("7", 500), ("30", 200), ("45", 100), ("60", 25)]
    advance_payment_discount_eur := { none := 0, fifty := 50, hundred := 100 }
    two_pcs_line_discount_eur := 25 }

/-- Scenario A of the test suite: dimensioned 200x100, quantity 1,
60 days, no advance. -/
def inputA : PriceInput :=
  { product_type := .dimensioned
    dimension := some "200x100"
    quantity := 1
    delivery_days := .d60
    base_override_eur := none
    startup_discount_eur := none
    first_order_discount_eur := none
    delivery_surcharge_override := none
    advance_payment := .none
    two_pcs_line_discount_eur := none
    advance_payment_discount_eur := none
    custom_unit_adjust_eur := none
    custom_line_adjust_eur := none }

/-- Scenario B of the test suite: table only, quantity 2, 45 days,
50 percent advance payment. -/
def inputB : PriceInput :=
  { inputA with
    product_type := .table_only
    dimension := none
    quantity := 2
    delivery_days := .d45
    advance_payment := .fifty }

/-- Scenario A with an authorized negative per-unit custom adjustment. -/
def inputNegAdjust : PriceInput :=
  { inputA with custom_unit_adjust_eur := some (-2000) }

/-- A dimensioned request whose dimension is not a key of
`cfg0.dimensionBaseEUR` but which carries a base override. -/
def inputBadDimWithOverride : PriceInput :=
  { inputA with dimension := some "999x999", base_override_eur := some 100 }

/-- A dimensioned request with no dimension and no base override. -/
def inputNoDim : PriceInput :=
  { inputA with dimension := none }

/-- A table-only request on the 30-day delivery tier, no overrides. -/
def inputTable30 : PriceInput :=
  { inputA with
    product_type := .table_only
    dimension := none
    delivery_days := .d30 }

/-- The reference rule set with the delivery surcharge record reduced
to the single tier key "7" — still accepted by `PricingSchema`, whose
record type does not require the other tiers to be present. -/
def cfgPartialDelivery : PricingConfig :=
  { cfg0 with delivery_surcharge_eur := [("7", 500)] }

section PriceProofs

attribute [local semireducible] Rat.add Rat.sub Rat.mul Rat.inv

theorem jsRound_eq (q : ℚ) : jsRound q = ⌊q + 1/2⌋ := by
  rw [jsRound, Rat.floor_def', ← Rat.floor_def]

theorem jsMax_eq (a b : ℚ) : jsMax a b = max a b := (max_def a b).symm

theorem jsMaxI_eq (a b : ℤ) : jsMaxI a b = max a b := (max_def a b).symm

theorem ratFloor_eq (q : ℚ) : q.floor = ⌊q⌋ := by
  rw [Rat.floor_def', ← Rat.floor_def]

theorem jsRound_nonneg (q : ℚ) (hq : 0 ≤ q) : 0 ≤ jsRound q := by
  rw [jsRound_eq]
  exact Int.le_floor.mpr (by push_cast; linarith)

theorem calculatePrice_fields (cfg : PricingConfig) (input : PriceInput) (base : ℚ)
    (hb : resolveBase cfg input = Except.ok base) :
    calculatePrice cfg input = Except.ok
      { base := base
        adjustments :=
          { startup_discount := resolveStartup cfg input
            first_order_discount := resolveFirstOrder cfg input
            delivery_surcharge := deliveryLookup cfg input
            advance_payment_discount := resolveAdvance cfg input
            two_pcs_line_discount_total := twoPcsDiscount cfg input
            custom_unit_adjust_eur := input.custom_unit_adjust_eur.getD 0
            custom_line_adjust_eur := input.custom_line_adjust_eur.getD 0 }
        unit := (deliveryLookup cfg input).map fun d =>
          jsRound (jsMax 0 (base - resolveStartup cfg input - resolveFirstOrder cfg input +
            d - resolveAdvance cfg input) + input.custom_unit_adjust_eur.getD 0)
        subtotal := (deliveryLookup cfg input).map fun d =>
          jsRound ((jsMax 0 (base - resolveStartup cfg input - resolveFirstOrder cfg input +
            d - resolveAdvance cfg input) + input.custom_unit_adjust_eur.getD 0) *
            input.quantity)
        total := (deliveryLookup cfg input).map fun d =>
          jsMaxI 0 (jsRound ((jsMax 0 (base - resolveStartup cfg input -
            resolveFirstOrder cfg input + d - resolveAdvance cfg input) +
            input.custom_unit_adjust_eur.getD 0) * input.quantity -
            twoPcsDiscount cfg input + input.custom_line_adjust_eur.getD 0)) } := by
  unfold calculatePrice
  rw [hb]
  simp [Option.map_map, Function.comp_def]

theorem scenarioA_unit :
    (calculatePrice cfg0 inputA).map Breakdown.unit = Except.ok (some 1120) := by decide

theorem scenarioA_total :
    (calculatePrice cfg0 inputA).map Breakdown.total = Except.ok (some 1120) := by decide

theorem scenarioB_values :
    (calculatePrice cfg0 inputB).map Breakdown.unit = Except.ok (some 405) ∧
    (calculatePrice cfg0 inputB).map Breakdown.subtotal = Except.ok (some 810) ∧
    (calculatePrice cfg0 inputB).map Breakdown.total = Except.ok (some 785) := by decide

/-- C1 (amended): whenever `calculatePrice` returns a real (non-`NaN`)
breakdown, `total ≥ 0` holds unconditionally, and `unit ≥ 0` holds
whenever the custom per-unit adjustment is absent or nonnegative; a
sufficiently negative authorized `custom_unit_adjust_eur` drives `unit`
below zero. -/
theorem calculatePrice_total_nonneg_unit_gated (cfg : PricingConfig)
    (input : PriceInput) (t u : ℤ)
    (ht : (calculatePrice cfg input).map Breakdown.total = Except.ok (some t))
    (hu : (calculatePrice cfg input).map Breakdown.unit = Except.ok (some u)) :
    0 ≤ t ∧ (0 ≤ input.custom_unit_adjust_eur.getD 0 → 0 ≤ u) := by
  cases hb : resolveBase cfg input with
  | error e => simp [calculatePrice, hb, Except.map] at ht
  | ok base =>
    rw [calculatePrice_fields cfg input base hb] at ht hu
    cases hd : deliveryLookup cfg input with
    | none => rw [hd] at ht; simp [Except.map] at ht
    | some dv =>
      rw [hd] at ht hu
      simp only [Except.map, Option.map_some', Except.ok.injEq,
        Option.some.injEq] at ht hu
      constructor
      · rw [← ht, jsMaxI_eq]
        exact le_max_left 0 _
      · intro hc
        rw [← hu]
        refine jsRound_nonneg _ ?_
        have h0 : 0 ≤ jsMax 0 (base - resolveStartup cfg input -
            resolveFirstOrder cfg input + dv - resolveAdvance cfg input) := by
          rw [jsMax_eq]; exact le_max_left 0 _
        linarith

/-- Witness for C1 at the reference rule set and scenario A. -/
theorem calculatePrice_total_nonneg_unit_gated_inst :
    (0 : ℤ) ≤ 1120 ∧ (0 ≤ inputA.custom_unit_adjust_eur.getD 0 → (0 : ℤ) ≤ 1120) :=
  calculatePrice_total_nonneg_unit_gated cfg0 inputA 1120 1120 (by decide) (by decide)

/-- Counterexample to C1 as stated: a schema-accepted input with an
authorized custom per-unit adjustment of −2000 yields `unit = −880 < 0`. -/
theorem calculatePrice_unit_negative :
    quantityAccepted inputNegAdjust.quantity = true ∧
    (calculatePrice cfg0 inputNegAdjust).map Breakdown.unit =
      Except.ok (some (-880)) ∧
    ¬ (0 : ℤ) ≤ -880 := by decide

/-- C3: on every successful computation the reported `unit` is
`round (max 0 (base − startup − firstOrder + delivery − advance) + customUnitAdjust)`:
the floor-at-zero clamp is applied once, before the custom per-unit
adjustment, and the result is rounded to the nearest integer. -/
theorem calculatePrice_unit_formula (cfg : PricingConfig) (input : PriceInput)
    (base d : ℚ) (hb : resolveBase cfg input = Except.ok base)
    (hd : deliveryLookup cfg input = some d) :
    (calculatePrice cfg input).map Breakdown.unit =
      Except.ok (some (round (max 0 (base - resolveStartup cfg input -
        resolveFirstOrder cfg input + d - resolveAdvance cfg input) +
        input.custom_unit_adjust_eur.getD 0))) := by
  rw [calculatePrice_fields cfg input base hb, hd]
  simp [Except.map, jsRound_eq, jsMax_eq, round_eq]

/-- Witness for C3 at the reference rule set and scenario A. -/
theorem calculatePrice_unit_formula_inst :
    (calculatePrice cfg0 inputA).map Breakdown.unit =
      Except.ok (some (round (max 0 ((1170 : ℚ) - resolveStartup cfg0 inputA -
        resolveFirstOrder cfg0 inputA + 25 - resolveAdvance cfg0 inputA) +
        inputA.custom_unit_adjust_eur.getD 0))) :=
  calculatePrice_unit_formula cfg0 inputA 1170 25 (by decide) (by decide)

/-- C4: on every successful computation, the reported `subtotal` is the
unrounded per-unit price times the quantity, rounded, with no line-level
adjustment; and `total = max 0 (round (subtotal_unrounded − bulkDiscount + customLineAdjust))`,
computed from the unrounded subtotal. -/
theorem calculatePrice_total_formula (cfg : PricingConfig) (input : PriceInput)
    (base d : ℚ) (hb : resolveBase cfg input = Except.ok base)
    (hd : deliveryLookup cfg input = some d) :
    (calculatePrice cfg input).map Breakdown.subtotal =
      Except.ok (some (round ((max 0 (base - resolveStartup cfg input -
        resolveFirstOrder cfg input + d - resolveAdvance cfg input) +
        input.custom_unit_adjust_eur.getD 0) * input.quantity))) ∧
    (calculatePrice cfg input).map Breakdown.total =
      Except.ok (some (max 0 (round ((max 0 (base - resolveStartup cfg input -
        resolveFirstOrder cfg input + d - resolveAdvance cfg input) +
        input.custom_unit_adjust_eur.getD 0) * input.quantity -
        twoPcsDiscount cfg input + input.custom_line_adjust_eur.getD 0)))) := by
  rw [calculatePrice_fields cfg input base hb, hd]
  constructor <;> simp [Except.map, jsRound_eq, jsMax_eq, jsMaxI_eq, round_eq]

/-- Witness for C4 at the reference rule set and scenario B. -/
theorem calculatePrice_total_formula_inst :
    (calculatePrice cfg0 inputB).map Breakdown.subtotal =
      Except.ok (some (round ((max 0 ((430 : ℚ) - resolveStartup cfg0 inputB -
        resolveFirstOrder cfg0 inputB + 100 - resolveAdvance cfg0 inputB) +
        inputB.custom_unit_adjust_eur.getD 0) * inputB.quantity))) ∧
    (calculatePrice cfg0 inputB).map Breakdown.total =
      Except.ok (some (max 0 (round ((max 0 ((430 : ℚ) - resolveStartup cfg0 inputB -
        resolveFirstOrder cfg0 inputB + 100 - resolveAdvance cfg0 inputB) +
        inputB.custom_unit_adjust_eur.getD 0) * inputB.quantity -
        twoPcsDiscount cfg0 inputB + inputB.custom_line_adjust_eur.getD 0)))) :=
  calculatePrice_total_formula cfg0 inputB 430 100 (by decide) (by decide)

/-- C5: on every successful computation the reported bulk-discount total
is `perPairRate × ⌊quantity / 2⌋` when `quantity ≥ 2` and `0` when
`quantity = 1`, where `perPairRate` is the rule-set value unless an
authorized `two_pcs_line_discount_eur` override replaces it. -/
theorem calculatePrice_bulk_pairing (cfg : PricingConfig) (input : PriceInput)
    (base : ℚ) (hb : resolveBase cfg input = Except.ok base) :
    (2 ≤ input.quantity →
      (calculatePrice cfg input).map
          (fun b => b.adjustments.two_pcs_line_discount_total) =
        Except.ok ((input.two_pcs_line_discount_eur.getD
          cfg.two_pcs_line_discount_eur) * ((⌊input.quantity / 2⌋ : ℤ) : ℚ))) ∧
    (input.quantity = 1 →
      (calculatePrice cfg input).map
          (fun b => b.adjustments.two_pcs_line_discount_total) =
        Except.ok 0) := by
  rw [calculatePrice_fields cfg input base hb]
  constructor
  · intro h2
    simp [Except.map, twoPcsDiscount, h2, ratFloor_eq]
  · intro h1
    have hz : twoPcsDiscount cfg input = 0 := by
      unfold twoPcsDiscount
      rw [h1]
      norm_num
    simp [Except.map, hz]

/-- Witness for C5 at the reference rule set and scenario B (quantity 2). -/
theorem calculatePrice_bulk_pairing_inst :
    (2 ≤ inputB.quantity →
      (calculatePrice cfg0 inputB).map
          (fun b => b.adjustments.two_pcs_line_discount_total) =
        Except.ok ((inputB.two_pcs_line_discount_eur.getD
          cfg0.two_pcs_line_discount_eur) * ((⌊inputB.quantity / 2⌋ : ℤ) : ℚ))) ∧
    (inputB.quantity = 1 →
      (calculatePrice cfg0 inputB).map
          (fun b => b.adjustments.two_pcs_line_discount_total) =
        Except.ok 0) :=
  calculatePrice_bulk_pairing cfg0 inputB 430 (by decide)

/-- C6 (amended): a dimensioned request whose dimension is absent or not
a key of the rule set's dimension table fails with the missing-dimension
error whenever no base override is supplied; an authorized
`base_override_eur` bypasses the dimension lookup entirely. -/
theorem calculatePrice_unknown_dim_fails (cfg : PricingConfig) (input : PriceInput)
    (h1 : input.product_type = ProductType.dimensioned)
    (h2 : input.base_override_eur = none)
    (h3 : input.dimension.bind (fun d => assq d cfg.dimensionBaseEUR) = none) :
    calculatePrice cfg input = Except.error PriceError.missingDimension := by
  have hb : resolveBase cfg input = Except.error PriceError.missingDimension := by
    unfold resolveBase
    rw [h2, h1]
    cases hdim : input.dimension with
    | none => rfl
    | some d =>
      rw [hdim] at h3
      simp only [Option.some_bind] at h3
      by_cases he : d = ""
      · simp [he]
      · simp [he, h3]
  unfold calculatePrice
  rw [hb]

/-- Witness for C6: dimensioned request with no dimension and no override. -/
theorem calculatePrice_unknown_dim_fails_inst :
    calculatePrice cfg0 inputNoDim = Except.error PriceError.missingDimension :=
  calculatePrice_unknown_dim_fails cfg0 inputNoDim rfl rfl rfl

/-- Counterexample to C6 as stated: with a base override present, a
dimensioned request whose dimension is not a key of the dimension table
succeeds instead of failing. -/
theorem calculatePrice_base_override_skips_dim_check :
    assq "999x999" cfg0.dimensionBaseEUR = none ∧
    (calculatePrice cfg0 inputBadDimWithOverride).map Breakdown.base =
      Except.ok 100 := by decide

/-- C10 (amended): whenever the delivery lookup (override map first,
then the rule set's record) finds a number, every numeric output of a
successful `calculatePrice` is a real number, never `NaN`; but
`PricingSchema` also accepts delivery records missing tiers, for which
the outputs are `NaN`. -/
theorem calculatePrice_real_when_delivery_covered (cfg : PricingConfig)
    (input : PriceInput) (base : ℚ)
    (hb : resolveBase cfg input = Except.ok base)
    (hd : (deliveryLookup cfg input).isSome = true) :
    (calculatePrice cfg input).map
        (fun b => (b.unit.isSome, b.subtotal.isSome, b.total.isSome)) =
      Except.ok (true, true, true) := by
  obtain ⟨d, hd2⟩ := Option.isSome_iff_exists.mp hd
  rw [calculatePrice_fields cfg input base hb, hd2]
  simp [Except.map]

/-- Witness for C10 at the reference rule set and scenario A. -/
theorem calculatePrice_real_when_delivery_covered_inst :
    (calculatePrice cfg0 inputA).map
        (fun b => (b.unit.isSome, b.subtotal.isSome, b.total.isSome)) =
      Except.ok (true, true, true) :=
  calculatePrice_real_when_delivery_covered cfg0 inputA 1170 (by decide) (by decide)

/-- Counterexample to C10 as stated: a rule set accepted by
`PricingSchema` that omits the 30-day tier makes `unit`, `subtotal` and
`total` all `NaN` (`none`) for a schema-accepted 30-day request. -/
theorem partial_delivery_map_gives_nan :
    pricingSchemaAcceptsDelivery cfgPartialDelivery = true ∧
    (calculatePrice cfgPartialDelivery inputTable30).map
        (fun b => (b.unit, b.subtotal, b.total)) =
      Except.ok ((none, none, none) : Option ℤ × Option ℤ × Option ℤ) := by decide

/-- C2: for every raw input and every override field,
`sanitizeOverrides input false` never includes that field in its output,
and `sanitizeOverrides input true` returns the input unchanged. -/
theorem sanitizeOverrides_gating {α : Type} (input : List (String × α)) (f : String)
    (hf : f ∈ overrideFields) :
    f ∉ (sanitizeOverrides input false).map Prod.fst ∧
    sanitizeOverrides input true = input := by
  refine ⟨?_, rfl⟩
  intro hmem
  simp only [sanitizeOverrides, if_neg, Bool.false_eq_true, not_false_eq_true,
    List.mem_map, List.mem_filter] at hmem
  obtain ⟨kv, ⟨_, hkeep⟩, hfst⟩ := hmem
  rw [hfst] at hkeep
  simp only [Bool.not_eq_true', List.contains, List.elem_eq_mem,
    decide_eq_false_iff_not] at hkeep
  exact hkeep hf

/-- Witness for C2 at a concrete input carrying an override and a plain field. -/
theorem sanitizeOverrides_gating_inst :
    "base_override_eur" ∉
      (sanitizeOverrides [("base_override_eur", (1 : ℕ)), ("quantity", 2)] false).map
        Prod.fst ∧
    sanitizeOverrides [("base_override_eur", (1 : ℕ)), ("quantity", 2)] true =
      [("base_override_eur", (1 : ℕ)), ("quantity", 2)] :=
  sanitizeOverrides_gating [("base_override_eur", (1 : ℕ)), ("quantity", 2)]
    "base_override_eur" (by decide)

/-- C7 (amended): `sanitizeOverrides input false` keeps every field whose
name is not one of the eight override fields — including unknown/extra
fields, which it does not drop (unknown-field stripping happens in the
zod schema parse, not here). -/
theorem sanitizeOverrides_keeps_nonoverride {α : Type} (input : List (String × α))
    (kv : String × α) (hin : kv ∈ input) (hk : kv.1 ∉ overrideFields) :
    kv ∈ sanitizeOverrides input false := by
  simp only [sanitizeOverrides, if_neg, Bool.false_eq_true, not_false_eq_true,
    List.mem_filter]
  refine ⟨hin, ?_⟩
  simp only [Bool.not_eq_true', List.contains, List.elem_eq_mem,
    decide_eq_false_iff_not]
  exact hk

/-- Witness for C7 at a concrete unknown field. -/
theorem sanitizeOverrides_keeps_nonoverride_inst :
    ("extra_field", (1 : ℕ)) ∈ sanitizeOverrides [("extra_field", (1 : ℕ))] false :=
  sanitizeOverrides_keeps_nonoverride [("extra_field", (1 : ℕ))]
    ("extra_field", (1 : ℕ)) (by decide) (by decide)

/-- Counterexample to C7 as stated: an unknown field that is not part of
the declared schema survives `sanitizeOverrides` with `allow = false`. -/
theorem sanitizeOverrides_unknown_field_kept :
    ("extra_field", (1 : ℕ)) ∈ sanitizeOverrides [("extra_field", (1 : ℕ))] false ∧
    "extra_field" ∉ declaredFields := by decide

/-- C8 (amended): the quantity rule of `PriceInputSchema` accepts a
number exactly when it lies between 1 and 500 inclusive; it does not
require integrality. -/
theorem quantityAccepted_iff (q : ℚ) :
    quantityAccepted q = true ↔ 1 ≤ q ∧ q ≤ 500 := by
  simp [quantityAccepted]

/-- Counterexample to C8 as stated: the non-integer quantity 5/2 is
accepted by the schema. -/
theorem quantityAccepted_noninteger :
    quantityAccepted (5 / 2) = true ∧ ((5 : ℚ) / 2).den ≠ 1 := by decide

/-- C9 (amended): a call of `getPricingConfig` with a populated cache
returns the cached value and leaves it untouched (it cannot fail), and
a failing load with an empty cache leaves the cache empty; but
`reloadPricingConfig` clears the cache before re-reading, so a failing
reload discards the previously cached value instead of preserving it. -/
theorem config_cache_behavior (src : Except ConfigError PricingConfig)
    (cfg : PricingConfig) (e : ConfigError) (hsrc : src = Except.error e) :
    getPricingConfig src (some cfg) = (Except.ok cfg, some cfg) ∧
    getPricingConfig src none = (Except.error e, none) ∧
    reloadPricingConfig src (some cfg) = (Except.error e, none) := by
  subst hsrc
  exact ⟨rfl, rfl, rfl⟩

/-- Witness for C9 at a concrete failing source and the reference rule set. -/
theorem config_cache_behavior_inst :
    getPricingConfig (Except.error ConfigError.invalidSchema) (some cfg0) =
      (Except.ok cfg0, some cfg0) ∧
    getPricingConfig (Except.error ConfigError.invalidSchema) none =
      (Except.error ConfigError.invalidSchema, none) ∧
    reloadPricingConfig (Except.error ConfigError.invalidSchema) (some cfg0) =
      (Except.error ConfigError.invalidSchema, none) :=
  config_cache_behavior (Except.error ConfigError.invalidSchema) cfg0
    ConfigError.invalidSchema rfl

/-- Counterexample to C9 as stated: after a failing
`reloadPricingConfig`, the previously cached rule set is gone — the new
cache state is `none`, and a subsequent `getPricingConfig` against the
still-failing source raises instead of returning the old value. -/
theorem reload_failure_clears_cache :
    (reloadPricingConfig (Except.error ConfigError.invalidSchema) (some cfg0)).2 = none ∧
    (none : Option PricingConfig) ≠ some cfg0 ∧
    (getPricingConfig (Except.error ConfigError.invalidSchema)
      (reloadPricingConfig (Except.error ConfigError.invalidSchema) (some cfg0)).2).1 =
      Except.error ConfigError.invalidSchema := by
  refine ⟨rfl, ?_, rfl⟩
  intro h
  cases h

end PriceProofs
